/-
Verification of the NDI Bridge Cloud Rendezvous Service (server.js / the
auto-discovery server variant) against its natural-language specification.

The JavaScript server keeps three in-memory `Map`s — `sessions`, `connections`
and `hosts` — and mutates them from HTTP route handlers, a WebSocket signal
handler, a UDP datagram handler and periodic sweep timers.  We embed each
`Map` as an association list with JavaScript `Map.set` overwrite semantics,
and each handler as a pure state-transformer returning the new state together
with the responses / WebSocket sends it performs.
-/
import Mathlib

namespace NDIBridge

/-! ## Association-list maps (JavaScript `Map` semantics) -/

/-- JS `Map.get k`: first binding of `k`, if any. -/
def lookup {α : Type} (m : List (String × α)) (k : String) : Option α :=
  match m with
  | [] => none
  | (k', v) :: rest => if k' = k then some v else lookup rest k

/-- JS `Map.set k v`: overwrite the binding of `k`, or append a new one. -/
def setKey {α : Type} (m : List (String × α)) (k : String) (v : α) :
    List (String × α) :=
  match m with
  | [] => [(k, v)]
  | (k', v') :: rest => if k' = k then (k, v) :: rest else (k', v') :: setKey rest k v

/-- JS `Map.delete k`: drop the first binding of `k`. -/
def delKey {α : Type} (m : List (String × α)) (k : String) : List (String × α) :=
  match m with
  | [] => []
  | (k', v') :: rest => if k' = k then rest else (k', v') :: delKey rest k

/-! ## Data model -/

/-- One entry of a host's `sources` array: `{ name, enabled }`. -/
structure SourceEntry where
  name : String
  enabled : Bool
deriving DecidableEq, Repr

/-- A pending connection request queued on a host (`connectedClients` entry). -/
structure ConnectionRequest where
  clientId : String
  clientName : String
  requestedSource : String
  publicIP : Option String
  publicPort : Option Int
  requestedAt : Int
  acknowledged : Bool
deriving DecidableEq, Repr

/-- A host-registry entry (`hosts` map value). -/
structure Host where
  hostId : String
  computerName : String
  sources : List SourceEntry
  publicIP : Option String
  publicPort : Int
  registeredAt : Int
  lastHeartbeat : Int
  connectedClients : List ConnectionRequest
deriving DecidableEq, Repr

/-- Host endpoint stored by `POST /api/host/endpoint/:code`. -/
structure HostEndpoint where
  publicIP : Option String
  publicPort : Option Int
  peerId : Option String
  updatedAt : Int
deriving DecidableEq, Repr

/-- Client endpoint stored by `POST /api/client/endpoint/:code`. -/
structure ClientEndpoint where
  publicIP : Option String
  publicPort : Option Int
  peerId : Option String
  clientName : Option String
  updatedAt : Int
deriving DecidableEq, Repr

/-- A session (`sessions` map value).  `host` holds the connection id of the
currently registered host WebSocket connection (`session.host`), `clients` the
connection ids of registered clients, `status` the literal strings
`"waiting"` / `"active"` the code assigns. -/
structure Session where
  code : String
  hostId : String
  bridgeName : String
  sources : List String
  host : Option String
  clients : List String
  createdAt : Int
  status : String
  hostEndpoint : Option HostEndpoint
  clientEndpoints : List ClientEndpoint
deriving DecidableEq, Repr

/-- Relay-side per-connection state (`connections` map value); `role` and
`sessionCode` start as `null` and are set by the `register` message. -/
structure Conn where
  role : Option String
  sessionCode : Option String
deriving DecidableEq, Repr

/-- The whole mutable server state: the three in-memory maps. -/
structure ServerState where
  sessions : List (String × Session)
  connections : List (String × Conn)
  hosts : List (String × Host)
deriving DecidableEq, Repr

def emptyState : ServerState := ⟨[], [], []⟩

/-! ## JavaScript truthiness helpers -/

/-- JS `a || b` on possibly-absent strings: `undefined`/`null` and `""` are falsy. -/
def jsOrStr (a : Option String) (b : String) : String :=
  match a with
  | some s => if s = "" then b else s
  | none => b

/-- JS `a || b` where both sides may be absent (used for `publicIP || getClientIP(req)`). -/
def jsOrOpt (a b : Option String) : Option String :=
  match a with
  | some s => if s = "" then b else some s
  | none => b

/-- JS `a || d` on a possibly-absent number: `0` is falsy. -/
def jsOrInt (a : Option Int) (d : Int) : Int :=
  match a with
  | some p => if p = 0 then d else p
  | none => d

/-- Host heartbeat expiry constant `HOST_TIMEOUT_MS`. -/
def HOST_TIMEOUT_MS : Int := 45000

/-! ## Host-registry HTTP handlers -/

/-- Response of `POST /api/hosts/register`. -/
inductive RegisterHostResp
  | badRequest
  | ok (hostId : String) (publicIP : Option String)
deriving DecidableEq, Repr

/-- Route `POST /api/hosts/register`.  `freshId` stands for the `generateHostId()`
draw used when no `hostId` was supplied, `reqIP` for `getClientIP(req)`. -/
def registerHost (hostId? : Option String) (computerName : String)
    (sources : List SourceEntry) (publicIP? : Option String)
    (publicPort? : Option Int) (reqIP : Option String) (freshId : String)
    (now : Int) (st : ServerState) : ServerState × RegisterHostResp :=
  if computerName = "" then (st, .badRequest)
  else
    let id := jsOrStr hostId? freshId
    let detectedIP := jsOrOpt publicIP? reqIP
    let host : Host :=
      { hostId := id
        computerName := computerName
        sources := sources
        publicIP := detectedIP
        publicPort := jsOrInt publicPort? 5961
        registeredAt :=
          match lookup st.hosts id with
          | some h => h.registeredAt
          | none => now
        lastHeartbeat := now
        connectedClients := [] }
    ({ st with hosts := setKey st.hosts id host }, .ok id detectedIP)

/-- Response of `POST /api/hosts/heartbeat/:hostId`. -/
inductive HeartbeatResp
  | notFound
  | ok (pendingClients : List ConnectionRequest)
deriving DecidableEq, Repr

/-- Route `POST /api/hosts/heartbeat/:hostId`. -/
def heartbeatHost (hostId : String) (publicIP? : Option String)
    (publicPort? : Option Int) (sources? : Option (List SourceEntry))
    (reqIP : Option String) (now : Int) (st : ServerState) :
    ServerState × HeartbeatResp :=
  match lookup st.hosts hostId with
  | none => (st, .notFound)
  | some host =>
    let detectedIP := jsOrOpt publicIP? reqIP
    let host' : Host :=
      { host with
        lastHeartbeat := now
        publicIP :=
          match detectedIP with
          | some ip => if ip = "" then host.publicIP else some ip
          | none => host.publicIP
        publicPort :=
          match publicPort? with
          | some p => if p = 0 then host.publicPort else p
          | none => host.publicPort
        sources :=
          match sources? with
          | some s => s
          | none => host.sources }
    ({ st with hosts := setKey st.hosts hostId host' },
     .ok (host'.connectedClients.filter (fun c => !c.acknowledged)))

/-- Route `DELETE /api/hosts/:hostId`. -/
def deleteHost (hostId : String) (st : ServerState) : ServerState :=
  { st with hosts := delKey st.hosts hostId }

/-- One line of the `GET /api/hosts` response. -/
structure AvailableHost where
  hostId : String
  computerName : String
  sources : List String
  online : Bool
  lastSeen : Int
deriving DecidableEq, Repr

/-- The entry `GET /api/hosts` builds for a live host. -/
def mkAvailable (hostId : String) (host : Host) : AvailableHost :=
  { hostId := hostId
    computerName := host.computerName
    sources := (host.sources.filter (fun s => s.enabled)).map (fun s => s.name)
    online := true
    lastSeen := host.lastHeartbeat }

/-- Route `GET /api/hosts`: hosts with a recent heartbeat and at least one enabled
source. -/
def listAvailableHosts (now : Int) (st : ServerState) : List AvailableHost :=
  st.hosts.filterMap (fun p =>
    if now - p.2.lastHeartbeat < HOST_TIMEOUT_MS then
      if (p.2.sources.filter (fun s => s.enabled)).length > 0 then
        some (mkAvailable p.1 p.2)
      else none
    else none)

/-- The 15-second host sweep: delete hosts whose heartbeat is older than
`HOST_TIMEOUT_MS`. -/
def hostSweep (now : Int) (st : ServerState) : ServerState :=
  { st with hosts := st.hosts.filter (fun p => !(now - p.2.lastHeartbeat > HOST_TIMEOUT_MS)) }

/-- The 5-minute session sweep: delete sessions older than 30 minutes. -/
def sessionSweep (now : Int) (st : ServerState) : ServerState :=
  { st with sessions := st.sessions.filter (fun p => !(now - p.2.createdAt > 30 * 60 * 1000)) }

/-- Response of `POST /api/hosts/:hostId/connect`. -/
inductive RequestConnectResp
  | hostNotFound
  | sourceNotFound
  | ok (clientId : String) (hostIP : Option String) (hostPort : Int)
deriving DecidableEq, Repr

/-- The pending request object `POST /api/hosts/:hostId/connect` builds. -/
def mkConnectionRequest (clientId? clientName? : Option String)
    (sourceName : String) (publicIP? : Option String) (publicPort? : Option Int)
    (freshClientId : String) (now : Int) : ConnectionRequest :=
  { clientId := jsOrStr clientId? freshClientId
    clientName := jsOrStr clientName? "Unknown Client"
    requestedSource := sourceName
    publicIP := publicIP?
    publicPort := publicPort?
    requestedAt := now
    acknowledged := false }

/-- Route `POST /api/hosts/:hostId/connect`.  `freshClientId` stands for the
`generateCode()` draw used when no `clientId` was supplied. -/
def requestConnect (hostId : String) (clientId? clientName? : Option String)
    (sourceName : String) (publicIP? : Option String) (publicPort? : Option Int)
    (freshClientId : String) (now : Int) (st : ServerState) :
    ServerState × RequestConnectResp :=
  match lookup st.hosts hostId with
  | none => (st, .hostNotFound)
  | some host =>
    match host.sources.find? (fun s => s.name = sourceName && s.enabled) with
    | none => (st, .sourceNotFound)
    | some _ =>
      let req : ConnectionRequest :=
        mkConnectionRequest clientId? clientName? sourceName publicIP? publicPort?
          freshClientId now
      let host' : Host := { host with connectedClients := host.connectedClients ++ [req] }
      ({ st with hosts := setKey st.hosts hostId host' },
       .ok req.clientId host.publicIP host.publicPort)

/-- Response of `POST /api/hosts/:hostId/acknowledge/:clientId`: the HTTP
status and the `success` flag. -/
structure AckResp where
  status : Nat
  success : Bool
deriving DecidableEq, Repr

/-- JS `connectedClients.find(c => c.clientId === clientId)` followed by the
in-place `client.acknowledged = true`: only the first match is updated. -/
def ackFirst (cs : List ConnectionRequest) (clientId : String) :
    List ConnectionRequest :=
  match cs with
  | [] => []
  | c :: rest =>
    if c.clientId = clientId then { c with acknowledged := true } :: rest
    else c :: ackFirst rest clientId

/-- Route `POST /api/hosts/:hostId/acknowledge/:clientId`. -/
def acknowledgeClient (hostId clientId : String) (st : ServerState) :
    ServerState × AckResp :=
  match lookup st.hosts hostId with
  | none => (st, { status := 404, success := false })
  | some host =>
    let host' : Host := { host with connectedClients := ackFirst host.connectedClients clientId }
    ({ st with hosts := setKey st.hosts hostId host' },
     { status := 200, success := true })

/-! ## Session creation and join-codes -/

/-- The 32-symbol join-code alphabet (no ambiguous characters). -/
def codeAlphabet : List Char := "ABCDEFGHJKLMNPQRSTUVWXYZ23456789".toList

/-- Modelled from the spec: the `nanoid` `customAlphabet(alphabet, 6)`
generator is an external library, not part of this repository's sources.
Per the spec it returns a 6-character string over the 32-symbol alphabet;
we model the library's randomness as the six index draws `draw`. -/
def generateCode (draw : Fin 6 → Fin 32) : String :=
  String.mk ((List.finRange 6).map (fun j => codeAlphabet.getD (draw j).val 'A'))

/-- Route `POST /api/session/create`: stores a fresh `waiting` session under the
generated `code` — unconditionally, with no look-up of `code` in `sessions`
beforehand. -/
def createSession (code hostId bridgeName : String) (sources : List String)
    (now : Int) (st : ServerState) : ServerState × String :=
  let session : Session :=
    { code := code
      hostId := hostId
      bridgeName := bridgeName
      sources := sources
      host := none
      clients := []
      createdAt := now
      status := "waiting"
      hostEndpoint := none
      clientEndpoints := [] }
  ({ st with sessions := setKey st.sessions code session }, code)

/-! ## WebSocket signaling relay -/

/-- An incoming WebSocket message (`data` after `JSON.parse`). -/
inductive SignalMsg
  | register (code : String) (role : String)
  | offer (targetId : Option String) (payload : String)
  | answer (targetId : Option String) (payload : String)
  | iceCandidate (targetId : Option String) (payload : String)
  | connectionInfo (targetId : Option String) (payload : String)
  | udpEndpoint (targetId : Option String) (payload : String)
  | ping
  | unknown (t : String)
deriving DecidableEq, Repr

/-- Field `data.targetId` of a message (absent on non-relayed types). -/
def SignalMsg.targetId : SignalMsg → Option String
  | .offer t _ => t
  | .answer t _ => t
  | .iceCandidate t _ => t
  | .connectionInfo t _ => t
  | .udpEndpoint t _ => t
  | _ => none

/-- Whether a message type is one the relay forwards. -/
def SignalMsg.isRelayed : SignalMsg → Bool
  | .offer _ _ => true
  | .answer _ _ => true
  | .iceCandidate _ _ => true
  | .connectionInfo _ _ => true
  | .udpEndpoint _ _ => true
  | _ => false

/-- A message the server writes to some WebSocket. -/
inductive OutMsg
  | errMsg (message : String)
  | registered (role : String) (code : String)
  | hostOnline
  | hostOffline
  | clientJoined (clientId : String)
  | clientLeft (clientId : String)
  | forwarded (msg : SignalMsg) (fromId : String)
  | pong
  | peerUdpInfo (peerId : String) (publicIP : String) (publicPort : Int)
deriving DecidableEq, Repr

/-- The `register` branch of `handleSignal`: note the code assigns
`connection.role` and `connection.sessionCode` *before* looking the session
up, so they are overwritten even when the session does not exist. -/
def handleRegister (connId code role : String) (st : ServerState) :
    ServerState × List (String × OutMsg) :=
  match lookup st.connections connId with
  | none => (st, [])
  | some _ =>
    let conn' : Conn := { role := some role, sessionCode := some code }
    let st1 : ServerState := { st with connections := setKey st.connections connId conn' }
    match lookup st1.sessions code with
    | none => (st1, [(connId, .errMsg "Session not found")])
    | some session =>
      if role = "host" then
        let session' : Session := { session with host := some connId, status := "active" }
        let st2 : ServerState := { st1 with sessions := setKey st1.sessions code session' }
        let notifications := session.clients.filterMap (fun cid =>
          if (lookup st2.connections cid).isSome then some (cid, OutMsg.hostOnline)
          else none)
        (st2, notifications ++ [(connId, .registered role code)])
      else if role = "client" then
        let session' : Session := { session with clients := session.clients ++ [connId] }
        let st2 : ServerState := { st1 with sessions := setKey st1.sessions code session' }
        let notifications :=
          match session.host with
          | some hid =>
            if (lookup st2.connections hid).isSome then [(hid, OutMsg.clientJoined connId)]
            else []
          | none => []
        (st2, notifications ++ [(connId, .registered role code)])
      else
        (st1, [(connId, .registered role code)])

/-- Function `forwardSignal(fromId, data)`: pure fan-out, no state change.  With a
`targetId` the message goes to that connection only (dropped if absent);
without one, a host broadcasts to `session.clients` and anyone else sends to
`[session.host]`, always skipping the sender's own id. -/
def forwardSignal (fromId : String) (msg : SignalMsg) (st : ServerState) :
    List (String × OutMsg) :=
  match lookup st.connections fromId with
  | none => []
  | some fromConn =>
    match fromConn.sessionCode with
    | none => []
    | some code =>
      match lookup st.sessions code with
      | none => []
      | some session =>
        match msg.targetId with
        | some tid =>
          if (lookup st.connections tid).isSome then [(tid, .forwarded msg fromId)]
          else []
        | none =>
          let peerIds :=
            if fromConn.role = some "host" then session.clients
            else
              match session.host with
              | some h => [h]
              | none => []
          peerIds.filterMap (fun id =>
            if (lookup st.connections id).isSome && id ≠ fromId then
              some (id, OutMsg.forwarded msg fromId)
            else none)

/-- Function `handleSignal(ws, connectionId, data)`. -/
def handleSignal (connId : String) (msg : SignalMsg) (st : ServerState) :
    ServerState × List (String × OutMsg) :=
  match msg with
  | .register code role => handleRegister connId code role st
  | .ping => (st, [(connId, .pong)])
  | .unknown _ => (st, [])
  | m => (st, forwardSignal connId m st)

/-- A new WebSocket connection: `connections.set(connectionId, {ws, role: null, sessionCode: null})`. -/
def newConnection (connId : String) (st : ServerState) : ServerState :=
  { st with connections := setKey st.connections connId { role := none, sessionCode := none } }

/-- Function `handleDisconnect(connectionId)`: clean the session named by the
connection's *current* `sessionCode` (only), then delete the connection. -/
def handleDisconnect (connId : String) (st : ServerState) :
    ServerState × List (String × OutMsg) :=
  let cleaned : ServerState × List (String × OutMsg) :=
    match lookup st.connections connId with
    | none => (st, [])
    | some conn =>
      match conn.sessionCode with
      | none => (st, [])
      | some code =>
        match lookup st.sessions code with
        | none => (st, [])
        | some session =>
          if conn.role = some "host" then
            let session' : Session := { session with host := none, status := "waiting" }
            let msgs := session.clients.filterMap (fun cid =>
              if (lookup st.connections cid).isSome then some (cid, OutMsg.hostOffline)
              else none)
            ({ st with sessions := setKey st.sessions code session' }, msgs)
          else if conn.role = some "client" then
            let session' : Session :=
              { session with clients := session.clients.filter (fun id => id ≠ connId) }
            let msgs :=
              match session.host with
              | some hid =>
                if (lookup st.connections hid).isSome then [(hid, OutMsg.clientLeft connId)]
                else []
              | none => []
            ({ st with sessions := setKey st.sessions code session' }, msgs)
          else (st, [])
  ({ cleaned.1 with connections := delKey cleaned.1.connections connId }, cleaned.2)

/-! ## HTTP polling endpoint updates -/

/-- Route `POST /api/host/endpoint/:code`. -/
def updateHostEndpoint (code : String) (ep : HostEndpoint) (st : ServerState) :
    ServerState :=
  match lookup st.sessions code with
  | none => st
  | some session =>
    let session' : Session := { session with hostEndpoint := some ep }
    { st with sessions := setKey st.sessions code session' }

/-- Route `POST /api/client/endpoint/:code`: replace the endpoint with the same
`peerId`, or append. -/
def upsertClientEndpoint (eps : List ClientEndpoint) (ep : ClientEndpoint) :
    List ClientEndpoint :=
  match eps with
  | [] => [ep]
  | e :: rest =>
    if e.peerId = ep.peerId then ep :: rest
    else e :: upsertClientEndpoint rest ep

/-- Route `POST /api/client/endpoint/:code`. -/
def updateClientEndpoint (code : String) (ep : ClientEndpoint) (st : ServerState) :
    ServerState :=
  match lookup st.sessions code with
  | none => st
  | some session =>
    let session' : Session :=
      { session with clientEndpoints := upsertClientEndpoint session.clientEndpoints ep }
    { st with sessions := setKey st.sessions code session' }

/-! ## The transition system

One step for every event that can mutate the three maps: HTTP handlers,
WebSocket connect / message / close, and the periodic sweeps. -/

inductive Step : ServerState → ServerState → Prop
  | create (code hostId bridgeName : String) (sources : List String) (now : Int)
      (st : ServerState) :
      Step st (createSession code hostId bridgeName sources now st).1
  | wsConnect (connId : String) (st : ServerState) :
      Step st (newConnection connId st)
  | wsSignal (connId : String) (msg : SignalMsg) (st : ServerState) :
      Step st (handleSignal connId msg st).1
  | wsClose (connId : String) (st : ServerState) :
      Step st (handleDisconnect connId st).1
  | regHost (hostId? : Option String) (computerName : String)
      (sources : List SourceEntry) (publicIP? : Option String)
      (publicPort? : Option Int) (reqIP : Option String) (freshId : String)
      (now : Int) (st : ServerState) :
      Step st (registerHost hostId? computerName sources publicIP? publicPort? reqIP freshId now st).1
  | beat (hostId : String) (publicIP? : Option String) (publicPort? : Option Int)
      (sources? : Option (List SourceEntry)) (reqIP : Option String) (now : Int)
      (st : ServerState) :
      Step st (heartbeatHost hostId publicIP? publicPort? sources? reqIP now st).1
  | delHost (hostId : String) (st : ServerState) :
      Step st (deleteHost hostId st)
  | connectReq (hostId : String) (clientId? clientName? : Option String)
      (sourceName : String) (publicIP? : Option String) (publicPort? : Option Int)
      (freshClientId : String) (now : Int) (st : ServerState) :
      Step st (requestConnect hostId clientId? clientName? sourceName publicIP? publicPort? freshClientId now st).1
  | ack (hostId clientId : String) (st : ServerState) :
      Step st (acknowledgeClient hostId clientId st).1
  | hostEndpoint (code : String) (ep : HostEndpoint) (st : ServerState) :
      Step st (updateHostEndpoint code ep st)
  | clientEndpoint (code : String) (ep : ClientEndpoint) (st : ServerState) :
      Step st (updateClientEndpoint code ep st)
  | sweepSessions (now : Int) (st : ServerState) :
      Step st (sessionSweep now st)
  | sweepHosts (now : Int) (st : ServerState) :
      Step st (hostSweep now st)

/-- States reachable from the empty server start-up state. -/
inductive Reachable : ServerState → Prop
  | init : Reachable emptyState
  | step {st st' : ServerState} : Reachable st → Step st st' → Reachable st'

/-- The spec's session invariant, read on the `status`/`host` *fields*:
`status == "active"` exactly when the host reference is non-null. -/
def statusHostInv (st : ServerState) : Prop :=
  ∀ p ∈ st.sessions, (p.2.status = "active" ↔ p.2.host.isSome = true)

/-! ## UDP STUN-like responder -/

/-- The datagram sent back to the requester. -/
structure StunResponse where
  publicIP : String
  publicPort : Int
  sessionCode : String
deriving DecidableEq, Repr

/-- The `stun_request` branch of the UDP message handler: echo the observed
source address/port back, and if `sessionCode` is truthy and names a session
notify every live member of the session other than the requester. -/
def handleStunRequest (sessionCode peerId addr : String) (port : Int)
    (st : ServerState) : StunResponse × List (String × OutMsg) :=
  let resp : StunResponse := { publicIP := addr, publicPort := port, sessionCode := sessionCode }
  let wsSends : List (String × OutMsg) :=
    if sessionCode ≠ "" then
      match lookup st.sessions sessionCode with
      | none => []
      | some session =>
        let allPeers :=
          ((match session.host with | some h => [h] | none => []) ++ session.clients).filter
            (fun s => s ≠ "")
        allPeers.filterMap (fun pid =>
          if (lookup st.connections pid).isSome && pid ≠ peerId then
            some (pid, OutMsg.peerUdpInfo peerId addr port)
          else none)
    else []
  (resp, wsSends)

/-! ## Map lemmas -/

theorem lookup_setKey {α : Type} (m : List (String × α)) (k k' : String) (v : α) :
    lookup (setKey m k v) k' = if k = k' then some v else lookup m k' := by
  induction m with
  | nil => by_cases h : k = k' <;> simp [setKey, lookup, h]
  | cons p rest ih =>
    obtain ⟨a, b⟩ := p
    by_cases hak : a = k
    · subst hak
      by_cases h : a = k' <;> simp [setKey, lookup, h, ih]
    · by_cases h : a = k'
      · subst h
        have hka : ¬ k = a := fun hh => hak hh.symm
        simp [setKey, lookup, hak, hka]
      · simp [setKey, lookup, hak, h, ih]

theorem lookup_mem {α : Type} {m : List (String × α)} {k : String} {v : α}
    (h : lookup m k = some v) : (k, v) ∈ m := by
  induction m with
  | nil => simp [lookup] at h
  | cons p rest ih =>
    obtain ⟨a, b⟩ := p
    by_cases hak : a = k
    · subst hak
      simp [lookup] at h
      subst h
      exact List.mem_cons_self _ _
    · simp [lookup, hak] at h
      exact List.mem_cons_of_mem _ (ih h)

theorem mem_setKey {α : Type} {m : List (String × α)} {k : String} {v : α}
    {p : String × α} (h : p ∈ setKey m k v) : p = (k, v) ∨ p ∈ m := by
  induction m with
  | nil => simp [setKey] at h; simp [h]
  | cons q rest ih =>
    obtain ⟨a, b⟩ := q
    by_cases hak : a = k
    · subst hak
      simp [setKey] at h
      rcases h with h | h
      · exact Or.inl h
      · exact Or.inr (List.mem_cons_of_mem _ h)
    · simp [setKey, hak] at h
      rcases h with h | h
      · exact Or.inr (by simp [h])
      · rcases ih h with h' | h'
        · exact Or.inl h'
        · exact Or.inr (List.mem_cons_of_mem _ h')

theorem setKey_lookup_self {α : Type} {m : List (String × α)} {k : String} {v : α}
    (h : lookup m k = some v) : setKey m k v = m := by
  induction m with
  | nil => simp [lookup] at h
  | cons p rest ih =>
    obtain ⟨a, b⟩ := p
    by_cases hak : a = k
    · subst hak
      simp [lookup] at h
      simp [setKey, h]
    · simp [lookup, hak] at h
      simp [setKey, hak, ih h]

theorem ackFirst_no_match (cs : List ConnectionRequest) (cid : String)
    (h : ∀ c ∈ cs, c.clientId ≠ cid) : ackFirst cs cid = cs := by
  induction cs with
  | nil => rfl
  | cons c rest ih =>
    have hc := h c (List.mem_cons_self _ _)
    rw [ackFirst, if_neg hc, ih (fun d hd => h d (List.mem_cons_of_mem _ hd))]

/-! ## Preservation of the status/host-field invariant -/

theorem statusHostInv_setKey {st : ServerState} {code : String} {s : Session}
    (h : statusHostInv st) (hs : s.status = "active" ↔ s.host.isSome = true) :
    ∀ p ∈ setKey st.sessions code s, (p.2.status = "active" ↔ p.2.host.isSome = true) := by
  intro p hp
  rcases mem_setKey hp with h' | h'
  · rw [h']; exact hs
  · exact h p h'

theorem createSession_inv (code hostId bridgeName : String) (sources : List String)
    (now : Int) (st : ServerState) (h : statusHostInv st) :
    statusHostInv (createSession code hostId bridgeName sources now st).1 := by
  intro p hp
  simp only [createSession] at hp
  exact statusHostInv_setKey h (by simp) p hp

theorem handleRegister_inv (connId code role : String) (st : ServerState)
    (h : statusHostInv st) : statusHostInv (handleRegister connId code role st).1 := by
  unfold handleRegister
  dsimp only
  split
  · exact h
  · split
    · intro p hp; exact h p hp
    next session hs =>
      split
      · intro p hp
        dsimp only at hp
        exact statusHostInv_setKey h (by simp) p hp
      · split
        · intro p hp
          dsimp only at hp
          exact statusHostInv_setKey h (by simpa using h _ (lookup_mem hs)) p hp
        · intro p hp; exact h p hp

theorem handleSignal_inv (connId : String) (msg : SignalMsg) (st : ServerState)
    (h : statusHostInv st) : statusHostInv (handleSignal connId msg st).1 := by
  cases msg with
  | register code role => exact handleRegister_inv connId code role st h
  | ping => exact h
  | unknown t => exact h
  | offer t p => exact h
  | answer t p => exact h
  | iceCandidate t p => exact h
  | connectionInfo t p => exact h
  | udpEndpoint t p => exact h

theorem handleDisconnect_inv (connId : String) (st : ServerState)
    (h : statusHostInv st) : statusHostInv (handleDisconnect connId st).1 := by
  unfold handleDisconnect
  dsimp only
  split
  · exact h
  · split
    · exact h
    · split
      · exact h
      next session hs =>
        split
        · intro p hp
          dsimp only at hp
          exact statusHostInv_setKey h (by simp) p hp
        · split
          · intro p hp
            dsimp only at hp
            exact statusHostInv_setKey h (by simpa using h _ (lookup_mem hs)) p hp
          · exact h

theorem updateHostEndpoint_inv (code : String) (ep : HostEndpoint) (st : ServerState)
    (h : statusHostInv st) : statusHostInv (updateHostEndpoint code ep st) := by
  unfold updateHostEndpoint
  split
  · exact h
  next session hs =>
    intro p hp
    dsimp only at hp
    exact statusHostInv_setKey h (by simpa using h _ (lookup_mem hs)) p hp

theorem updateClientEndpoint_inv (code : String) (ep : ClientEndpoint) (st : ServerState)
    (h : statusHostInv st) : statusHostInv (updateClientEndpoint code ep st) := by
  unfold updateClientEndpoint
  split
  · exact h
  next session hs =>
    intro p hp
    dsimp only at hp
    exact statusHostInv_setKey h (by simpa using h _ (lookup_mem hs)) p hp

theorem sessionSweep_inv (now : Int) (st : ServerState)
    (h : statusHostInv st) : statusHostInv (sessionSweep now st) := by
  intro p hp
  simp only [sessionSweep] at hp
  exact h p (List.mem_of_mem_filter hp)

theorem registerHost_sessions (hostId? : Option String) (computerName : String)
    (sources : List SourceEntry) (publicIP? : Option String)
    (publicPort? : Option Int) (reqIP : Option String) (freshId : String)
    (now : Int) (st : ServerState) :
    (registerHost hostId? computerName sources publicIP? publicPort? reqIP freshId now st).1.sessions
      = st.sessions := by
  unfold registerHost
  by_cases h : computerName = "" <;> simp [h]

theorem heartbeatHost_sessions (hostId : String) (publicIP? : Option String)
    (publicPort? : Option Int) (sources? : Option (List SourceEntry))
    (reqIP : Option String) (now : Int) (st : ServerState) :
    (heartbeatHost hostId publicIP? publicPort? sources? reqIP now st).1.sessions
      = st.sessions := by
  unfold heartbeatHost
  split <;> rfl

theorem requestConnect_sessions (hostId : String) (clientId? clientName? : Option String)
    (sourceName : String) (publicIP? : Option String) (publicPort? : Option Int)
    (freshClientId : String) (now : Int) (st : ServerState) :
    (requestConnect hostId clientId? clientName? sourceName publicIP? publicPort? freshClientId now st).1.sessions
      = st.sessions := by
  unfold requestConnect
  split
  · rfl
  · split <;> rfl

theorem acknowledgeClient_sessions (hostId clientId : String) (st : ServerState) :
    (acknowledgeClient hostId clientId st).1.sessions = st.sessions := by
  unfold acknowledgeClient
  split <;> rfl

/-- Every reachable server state satisfies the status/host-field invariant. -/
theorem reachable_inv_aux : ∀ st : ServerState, Reachable st → statusHostInv st := by
  intro st h
  induction h with
  | init => intro p hp; simp [emptyState] at hp
  | @step s s' hr hstep ih =>
    cases hstep with
    | create code hostId bridgeName sources now =>
      exact createSession_inv code hostId bridgeName sources now s ih
    | wsConnect connId => exact ih
    | wsSignal connId msg => exact handleSignal_inv connId msg s ih
    | wsClose connId => exact handleDisconnect_inv connId s ih
    | regHost hostId? computerName sources publicIP? publicPort? reqIP freshId now =>
      intro p hp
      rw [registerHost_sessions] at hp
      exact ih p hp
    | beat hostId publicIP? publicPort? sources? reqIP now =>
      intro p hp
      rw [heartbeatHost_sessions] at hp
      exact ih p hp
    | delHost hostId => exact ih
    | connectReq hostId clientId? clientName? sourceName publicIP? publicPort? freshClientId now =>
      intro p hp
      rw [requestConnect_sessions] at hp
      exact ih p hp
    | ack hostId clientId =>
      intro p hp
      rw [acknowledgeClient_sessions] at hp
      exact ih p hp
    | hostEndpoint code ep => exact updateHostEndpoint_inv code ep s ih
    | clientEndpoint code ep => exact updateClientEndpoint_inv code ep s ih
    | sweepSessions now => exact sessionSweep_inv now s ih
    | sweepHosts now => exact ih

/-! ## Claim C2 -/

/-- Claim C2 (counterexample to the claim as stated).  Connection `c1` registers
as host for session `AAAAAA`, then re-registers as host for session `BBBBBB`,
then disconnects.  `c1` was the registered host of `AAAAAA` (its `host` field
still names `c1`), its connection is gone, yet `AAAAAA` is left with
`status = "active"` and the host reference not cleared — contradicting
"after the registered host's connection disconnects, the session's status is
'waiting' and the host reference is cleared, never left 'active'". -/
theorem C2_counterexample :
    (lookup ((handleDisconnect "c1" ((handleSignal "c1"
        (SignalMsg.register "BBBBBB" "host") ((createSession "BBBBBB" "h1" "B1" [] 0
        ((handleSignal "c1" (SignalMsg.register "AAAAAA" "host")
          (newConnection "c1"
            ((createSession "AAAAAA" "h1" "B1" [] 0 emptyState).1))).1)).1)).1)).1).sessions
        "AAAAAA").map Session.host = some (some "c1") ∧
    (lookup ((handleDisconnect "c1" ((handleSignal "c1"
        (SignalMsg.register "BBBBBB" "host") ((createSession "BBBBBB" "h1" "B1" [] 0
        ((handleSignal "c1" (SignalMsg.register "AAAAAA" "host")
          (newConnection "c1"
            ((createSession "AAAAAA" "h1" "B1" [] 0 emptyState).1))).1)).1)).1)).1).sessions
        "AAAAAA").map Session.status = some "active" ∧
    lookup ((handleDisconnect "c1" ((handleSignal "c1"
        (SignalMsg.register "BBBBBB" "host") ((createSession "BBBBBB" "h1" "B1" [] 0
        ((handleSignal "c1" (SignalMsg.register "AAAAAA" "host")
          (newConnection "c1"
            ((createSession "AAAAAA" "h1" "B1" [] 0 emptyState).1))).1)).1)).1)).1).connections
        "c1" = none := by
  exact ⟨rfl, rfl, rfl⟩

/-- Claim C2 (amended).  In every reachable state the *field* invariant holds:
a session's `status` is `"active"` iff its `host` reference is non-null.  And
disconnecting a host connection whose `sessionCode` still names the session
(i.e. the host has not re-registered elsewhere) clears the session's host
reference and reverts its status to `"waiting"`. -/
theorem C2_status_host_invariant :
    (∀ st : ServerState, Reachable st → statusHostInv st) ∧
    (∀ (st : ServerState) (connId code : String) (conn : Conn) (session : Session),
      lookup st.connections connId = some conn →
      conn.role = some "host" →
      conn.sessionCode = some code →
      lookup st.sessions code = some session →
      (lookup (handleDisconnect connId st).1.sessions code).map Session.status
          = some "waiting" ∧
      (lookup (handleDisconnect connId st).1.sessions code).map Session.host
          = some none) := by
  constructor
  · exact reachable_inv_aux
  · intro st connId code conn session hc hrole hcode hs
    simp [handleDisconnect, hc, hcode, hs, hrole, lookup_setKey]

/-- Witness for C2: the amended theorem applied to the concrete reachable
state in which `c1` is the registered host of session `AAAAAA`. -/
theorem C2_witness :
    statusHostInv ((handleSignal "c1" (SignalMsg.register "AAAAAA" "host")
      (newConnection "c1" ((createSession "AAAAAA" "h1" "B1" [] 0 emptyState).1))).1) ∧
    ((lookup ((handleDisconnect "c1" ((handleSignal "c1"
        (SignalMsg.register "AAAAAA" "host") (newConnection "c1"
        ((createSession "AAAAAA" "h1" "B1" [] 0 emptyState).1))).1)).1).sessions
        "AAAAAA").map Session.status = some "waiting" ∧
     (lookup ((handleDisconnect "c1" ((handleSignal "c1"
        (SignalMsg.register "AAAAAA" "host") (newConnection "c1"
        ((createSession "AAAAAA" "h1" "B1" [] 0 emptyState).1))).1)).1).sessions
        "AAAAAA").map Session.host = some none) := by
  constructor
  · exact C2_status_host_invariant.1 _
      (Reachable.step
        (Reachable.step
          (Reachable.step Reachable.init
            (Step.create "AAAAAA" "h1" "B1" [] 0 emptyState))
          (Step.wsConnect "c1" _))
        (Step.wsSignal "c1" (SignalMsg.register "AAAAAA" "host") _))
  · exact C2_status_host_invariant.2 _ "c1" "AAAAAA"
      { role := some "host", sessionCode := some "AAAAAA" }
      { code := "AAAAAA", hostId := "h1", bridgeName := "B1", sources := []
        host := some "c1", clients := [], createdAt := 0, status := "active"
        hostEndpoint := none, clientEndpoints := [] }
      rfl rfl rfl rfl

/-! ## Claim C1 -/

/-- Claim C1 (counterexample to the claim as stated).  A session with code
`AAAAAA` is live (`Bridge1`, created at time 0).  `createSession` is then
called while the generator draws the same code `AAAAAA`: the returned code is
the colliding `AAAAAA` itself — no regeneration happened — and the registry
now holds only the new `Bridge2` session: the pre-existing live session was
silently overwritten instead of the code being re-drawn. -/
theorem C1_counterexample :
    (createSession "AAAAAA" "h2" "Bridge2" [] 5
        ((createSession "AAAAAA" "h1" "Bridge1" [] 0 emptyState).1)).2 = "AAAAAA" ∧
    (createSession "AAAAAA" "h2" "Bridge2" [] 5
        ((createSession "AAAAAA" "h1" "Bridge1" [] 0 emptyState).1)).1.sessions
      = [("AAAAAA",
          { code := "AAAAAA", hostId := "h2", bridgeName := "Bridge2", sources := []
            host := none, clients := [], createdAt := 5, status := "waiting"
            hostEndpoint := none, clientEndpoints := [] })] := by
  exact ⟨rfl, rfl⟩

/-- Claim C1 (amended).  Every generated code is a 6-character string over the
32-symbol alphabet, and `createSession` returns the drawn code as-is: it
performs *no* collision check against the live registry — the new session is
stored with `Map.set` overwrite semantics under the drawn code
unconditionally (so the registry never maps one code to two sessions, but a
colliding live session is replaced, not the code regenerated). -/
theorem C1_code_shape_and_overwrite (draw : Fin 6 → Fin 32)
    (hostId bridgeName : String) (sources : List String) (now : Int)
    (st : ServerState) :
    (generateCode draw).length = 6 ∧
    (∀ c ∈ (generateCode draw).toList, c ∈ codeAlphabet) ∧
    (createSession (generateCode draw) hostId bridgeName sources now st).2
      = generateCode draw ∧
    (createSession (generateCode draw) hostId bridgeName sources now st).1.sessions
      = setKey st.sessions (generateCode draw)
          { code := generateCode draw, hostId := hostId, bridgeName := bridgeName
            sources := sources, host := none, clients := [], createdAt := now
            status := "waiting", hostEndpoint := none, clientEndpoints := [] } := by
  refine ⟨?_, ?_, rfl, rfl⟩
  · simp [generateCode, String.length]
  · have halpha : ∀ i : Fin 32, codeAlphabet.getD i.val 'A' ∈ codeAlphabet := by decide
    intro c hc
    simp only [generateCode, String.toList, String.mk, List.mem_map] at hc
    obtain ⟨j, _, hj⟩ := hc
    rw [← hj]
    exact halpha (draw j)

/-- Witness for C1: the amended theorem at a concrete draw (all zeros,
yielding code `AAAAAA`) on the empty state. -/
theorem C1_witness :
    (generateCode (fun _ => (0 : Fin 32))).length = 6 ∧
    (∀ c ∈ (generateCode (fun _ => (0 : Fin 32))).toList, c ∈ codeAlphabet) ∧
    (createSession (generateCode (fun _ => (0 : Fin 32))) "h1" "B1" [] 0 emptyState).2
      = generateCode (fun _ => (0 : Fin 32)) ∧
    (createSession (generateCode (fun _ => (0 : Fin 32))) "h1" "B1" [] 0 emptyState).1.sessions
      = setKey emptyState.sessions (generateCode (fun _ => (0 : Fin 32)))
          { code := generateCode (fun _ => (0 : Fin 32)), hostId := "h1", bridgeName := "B1"
            sources := [], host := none, clients := [], createdAt := 0
            status := "waiting", hostEndpoint := none, clientEndpoints := [] } :=
  C1_code_shape_and_overwrite (fun _ => (0 : Fin 32)) "h1" "B1" [] 0 emptyState

/-! ## Claim C4 -/

/-- Claim C4 (counterexample to the claim as stated).  A fresh connection `c1`
sends `register` with the unknown code `XXXXXX`: the server does reply with
the `Session not found` error, but the connection's relay state does *not*
remain unregistered — its `role` and `sessionCode` have been overwritten with
the attempted values, because `handleSignal` assigns them before looking the
session up. -/
theorem C4_counterexample :
    (handleSignal "c1" (SignalMsg.register "XXXXXX" "host")
        (newConnection "c1" emptyState)).2
      = [("c1", OutMsg.errMsg "Session not found")] ∧
    lookup (handleSignal "c1" (SignalMsg.register "XXXXXX" "host")
        (newConnection "c1" emptyState)).1.connections "c1"
      = some { role := some "host", sessionCode := some "XXXXXX" } ∧
    (lookup (handleSignal "c1" (SignalMsg.register "XXXXXX" "host")
        (newConnection "c1" emptyState)).1.connections "c1").map Conn.role
      ≠ some none := by
  refine ⟨rfl, rfl, by decide⟩

/-- Claim C4 (amended).  Registering with a session code not in the registry
sends the `Session not found` error back and leaves the session registry,
the host registry and every *other* connection unchanged — but the sender's
own `role` and `sessionCode` are overwritten with the attempted values
(the assignment happens before the lookup), rather than remaining unset. -/
theorem C4_register_unknown_session (st : ServerState) (connId code role : String)
    (conn : Conn) (hc : lookup st.connections connId = some conn)
    (hs : lookup st.sessions code = none) :
    (handleRegister connId code role st).2
        = [(connId, OutMsg.errMsg "Session not found")] ∧
    (handleRegister connId code role st).1.sessions = st.sessions ∧
    (handleRegister connId code role st).1.hosts = st.hosts ∧
    (handleRegister connId code role st).1.connections
        = setKey st.connections connId ⟨some role, some code⟩ := by
  refine ⟨?_, ?_, ?_, ?_⟩ <;> simp [handleRegister, hc, hs]

/-- Witness for C4: the amended theorem at a fresh connection and an empty
session registry. -/
theorem C4_witness :
    (handleRegister "c1" "YYYYYY" "client" (newConnection "c1" emptyState)).2
        = [("c1", OutMsg.errMsg "Session not found")] ∧
    (handleRegister "c1" "YYYYYY" "client" (newConnection "c1" emptyState)).1.sessions
        = (newConnection "c1" emptyState).sessions ∧
    (handleRegister "c1" "YYYYYY" "client" (newConnection "c1" emptyState)).1.hosts
        = (newConnection "c1" emptyState).hosts ∧
    (handleRegister "c1" "YYYYYY" "client" (newConnection "c1" emptyState)).1.connections
        = setKey (newConnection "c1" emptyState).connections "c1"
            ⟨some "client", some "YYYYYY"⟩ :=
  C4_register_unknown_session (newConnection "c1" emptyState) "c1" "YYYYYY" "client"
    ⟨none, none⟩ rfl rfl

/-! ## Claim C5 -/

/-- Claim C5 (counterexample to the claim as stated).  Acknowledging against a
`hostId` absent from the registry returns the 404 `Host not found` error with
`success = false` — not a success response as the claim asserts. -/
theorem C5_counterexample :
    acknowledgeClient "h1" "c1" emptyState
      = (emptyState, { status := 404, success := false }) := rfl

/-- Claim C5 (amended).  When the host exists but no pending request matches
`clientId`, acknowledge is a state no-op that still returns 200/success;
when the host itself is absent, the state is likewise unchanged but the
response is the 404 `Host not found` *error*, not success. -/
theorem C5_acknowledge_behavior :
    (∀ (st : ServerState) (hostId clientId : String),
      lookup st.hosts hostId = none →
      acknowledgeClient hostId clientId st = (st, { status := 404, success := false })) ∧
    (∀ (st : ServerState) (hostId clientId : String) (host : Host),
      lookup st.hosts hostId = some host →
      (∀ c ∈ host.connectedClients, c.clientId ≠ clientId) →
      acknowledgeClient hostId clientId st = (st, { status := 200, success := true })) := by
  constructor
  · intro st hostId clientId h
    simp [acknowledgeClient, h]
  · intro st hostId clientId host h hnone
    simp only [acknowledgeClient, h, ackFirst_no_match host.connectedClients clientId hnone]
    rw [show ({ host with connectedClients := host.connectedClients } : Host) = host from rfl]
    rw [setKey_lookup_self h]

/-- Witness for C5: both halves of the amended theorem at concrete states —
a missing host on the empty registry, and a host whose only pending request
names a different client. -/
theorem C5_witness :
    acknowledgeClient "h0" "c0" emptyState = (emptyState, ⟨404, false⟩) ∧
    acknowledgeClient "h1" "nobody"
        ⟨[], [], [("h1", ⟨"h1", "PC", [], none, 5961, 0, 0,
            [⟨"x", "X", "Cam", none, none, 0, false⟩]⟩)]⟩
      = (⟨[], [], [("h1", ⟨"h1", "PC", [], none, 5961, 0, 0,
            [⟨"x", "X", "Cam", none, none, 0, false⟩]⟩)]⟩,
         ⟨200, true⟩) := by
  constructor
  · exact C5_acknowledge_behavior.1 emptyState "h0" "c0" rfl
  · exact C5_acknowledge_behavior.2 _ "h1" "nobody"
      ⟨"h1", "PC", [], none, 5961, 0, 0, [⟨"x", "X", "Cam", none, none, 0, false⟩]⟩
      rfl (by decide)

/-! ## Claim C6 -/

/-- Claim C6 (counterexample to the claim as stated).  Connection `c1` sends
`register` with role `client` twice for the same session `AAAAAA`: the
session's clients list ends up `["c1", "c1"]` — a duplicate entry, reachable
in a two-message run. -/
theorem C6_counterexample :
    (lookup ((handleSignal "c1" (SignalMsg.register "AAAAAA" "client")
        ((handleSignal "c1" (SignalMsg.register "AAAAAA" "client")
          (newConnection "c1"
            ((createSession "AAAAAA" "h1" "B1" [] 0 emptyState).1))).1)).1).sessions
        "AAAAAA").map Session.clients = some ["c1", "c1"]
      ∧ ¬ ((["c1", "c1"] : List String).Nodup) := by
  exact ⟨rfl, by decide⟩

/-- Claim C6 (amended).  Registering with role `client` for an existing session
*always* appends the connection id to the session's clients list — including
when that id is already present — so the clients list can hold duplicates. -/
theorem C6_register_client_appends (st : ServerState) (connId code : String)
    (conn : Conn) (session : Session)
    (hc : lookup st.connections connId = some conn)
    (hs : lookup st.sessions code = some session) :
    lookup (handleRegister connId code "client" st).1.sessions code
      = some { session with clients := session.clients ++ [connId] } := by
  simp [handleRegister, hc, hs, lookup_setKey]

/-- Witness for C6: the amended theorem applied at the state where `c1` is
already in the clients list, exhibiting the duplicate append. -/
theorem C6_witness :
    lookup (handleRegister "c1" "AAAAAA"
        "client" ((handleSignal "c1" (SignalMsg.register "AAAAAA" "client")
          (newConnection "c1"
            ((createSession "AAAAAA" "h1" "B1" [] 0 emptyState).1))).1)).1.sessions "AAAAAA"
      = some { code := "AAAAAA", hostId := "h1", bridgeName := "B1", sources := []
               host := none, clients := ["c1"] ++ ["c1"], createdAt := 0
               status := "waiting", hostEndpoint := none, clientEndpoints := [] } :=
  C6_register_client_appends _ "c1" "AAAAAA"
    { role := some "client", sessionCode := some "AAAAAA" }
    { code := "AAAAAA", hostId := "h1", bridgeName := "B1", sources := []
      host := none, clients := ["c1"], createdAt := 0, status := "waiting"
      hostEndpoint := none, clientEndpoints := [] }
    rfl rfl

/-! ## Claim C7 -/

/-- Claim C7 (confirmed).  `requestConnect` against a source that does not exist
or is not enabled returns `SourceNotFound` and leaves the state (in
particular the host's pending-request queue) unchanged; against an enabled
source it appends exactly one pending request and returns the client id and
host endpoint; calling it again appends a second, duplicate request. -/
theorem C7_requestConnect_behavior :
    (∀ (st : ServerState) (hostId : String) (clientId? clientName? : Option String)
       (sourceName : String) (publicIP? : Option String) (publicPort? : Option Int)
       (fresh : String) (now : Int) (host : Host),
      lookup st.hosts hostId = some host →
      (∀ s ∈ host.sources, s.name = sourceName → s.enabled = false) →
      requestConnect hostId clientId? clientName? sourceName publicIP? publicPort? fresh now st
        = (st, RequestConnectResp.sourceNotFound)) ∧
    (∀ (st : ServerState) (hostId : String) (clientId? clientName? : Option String)
       (sourceName : String) (publicIP? : Option String) (publicPort? : Option Int)
       (fresh : String) (now : Int) (fresh₂ : String) (now₂ : Int)
       (host : Host) (src : SourceEntry),
      lookup st.hosts hostId = some host →
      src ∈ host.sources → src.name = sourceName → src.enabled = true →
      (requestConnect hostId clientId? clientName? sourceName publicIP? publicPort? fresh now st).2
          = RequestConnectResp.ok (jsOrStr clientId? fresh) host.publicIP host.publicPort ∧
      (lookup (requestConnect hostId clientId? clientName? sourceName publicIP? publicPort? fresh now st).1.hosts
          hostId).map Host.connectedClients
        = some (host.connectedClients
            ++ [mkConnectionRequest clientId? clientName? sourceName publicIP? publicPort? fresh now]) ∧
      (lookup (requestConnect hostId clientId? clientName? sourceName publicIP? publicPort? fresh₂ now₂
          (requestConnect hostId clientId? clientName? sourceName publicIP? publicPort? fresh now st).1).1.hosts
          hostId).map Host.connectedClients
        = some ((host.connectedClients
            ++ [mkConnectionRequest clientId? clientName? sourceName publicIP? publicPort? fresh now])
            ++ [mkConnectionRequest clientId? clientName? sourceName publicIP? publicPort? fresh₂ now₂])) := by
  constructor
  · intro st hostId cid cn sn pip pp fresh now host h1 h2
    have hfind : host.sources.find? (fun s => s.name = sn && s.enabled) = none := by
      rw [List.find?_eq_none]
      intro s hsmem
      simp only [Bool.and_eq_true, decide_eq_true_eq, not_and]
      intro hname
      rw [h2 s hsmem hname]
      simp
    simp [requestConnect, h1, hfind]
  · intro st hostId cid cn sn pip pp fresh now fresh₂ now₂ host src h1 hmem hname hen
    have hfind : ∃ r, host.sources.find? (fun s => s.name = sn && s.enabled) = some r := by
      have hsome : (host.sources.find? (fun s => s.name = sn && s.enabled)).isSome = true := by
        rw [List.find?_isSome]
        exact ⟨src, hmem, by simp [hname, hen]⟩
      exact Option.isSome_iff_exists.mp hsome
    obtain ⟨r, hr⟩ := hfind
    have hfirst : (requestConnect hostId cid cn sn pip pp fresh now st).1.hosts
        = setKey st.hosts hostId
            { host with connectedClients := host.connectedClients
                ++ [mkConnectionRequest cid cn sn pip pp fresh now] } := by
      simp [requestConnect, h1, hr]
    have h1' : lookup (requestConnect hostId cid cn sn pip pp fresh now st).1.hosts hostId
        = some { host with connectedClients := host.connectedClients
            ++ [mkConnectionRequest cid cn sn pip pp fresh now] } := by
      rw [hfirst, lookup_setKey]
      simp
    refine ⟨?_, ?_, ?_⟩
    · simp [requestConnect, h1, hr, mkConnectionRequest, jsOrStr]
    · rw [h1']
      rfl
    · revert h1'
      generalize (requestConnect hostId cid cn sn pip pp fresh now st).1 = st'
      intro h1'
      simp [requestConnect, h1', hr, lookup_setKey]

/-- Witness for C7: both halves at a concrete one-host registry — the
disabled source `Cam` is rejected with no state change, the enabled source
`Cam2` is appended (twice on a repeated call). -/
theorem C7_witness :
    requestConnect "h1" (some "c9") (some "N") "Cam" none none "F" 7
        ⟨[], [], [("h1", ⟨"h1", "PC", [⟨"Cam", false⟩, ⟨"Cam2", true⟩], none, 5961, 0, 0, []⟩)]⟩
      = (⟨[], [], [("h1", ⟨"h1", "PC", [⟨"Cam", false⟩, ⟨"Cam2", true⟩], none, 5961, 0, 0, []⟩)]⟩,
         RequestConnectResp.sourceNotFound) ∧
    (requestConnect "h1" (some "c9") (some "N") "Cam2" none none "F" 7
        ⟨[], [], [("h1", ⟨"h1", "PC", [⟨"Cam", false⟩, ⟨"Cam2", true⟩], none, 5961, 0, 0, []⟩)]⟩).2
      = RequestConnectResp.ok (jsOrStr (some "c9") "F") none 5961 ∧
    (lookup (requestConnect "h1" (some "c9") (some "N") "Cam2" none none "F" 7
        ⟨[], [], [("h1", ⟨"h1", "PC", [⟨"Cam", false⟩, ⟨"Cam2", true⟩], none, 5961, 0, 0, []⟩)]⟩).1.hosts
        "h1").map Host.connectedClients
      = some ([] ++ [mkConnectionRequest (some "c9") (some "N") "Cam2" none none "F" 7]) := by
  refine ⟨?_, ?_, ?_⟩
  · exact C7_requestConnect_behavior.1 _ "h1" (some "c9") (some "N") "Cam" none none "F" 7
      ⟨"h1", "PC", [⟨"Cam", false⟩, ⟨"Cam2", true⟩], none, 5961, 0, 0, []⟩ rfl (by decide)
  · exact (C7_requestConnect_behavior.2
      ⟨[], [], [("h1", ⟨"h1", "PC", [⟨"Cam", false⟩, ⟨"Cam2", true⟩], none, 5961, 0, 0, []⟩)]⟩
      "h1" (some "c9") (some "N") "Cam2" none none "F" 7 "F" 7
      ⟨"h1", "PC", [⟨"Cam", false⟩, ⟨"Cam2", true⟩], none, 5961, 0, 0, []⟩
      ⟨"Cam2", true⟩ rfl (by decide) rfl rfl).1
  · exact (C7_requestConnect_behavior.2
      ⟨[], [], [("h1", ⟨"h1", "PC", [⟨"Cam", false⟩, ⟨"Cam2", true⟩], none, 5961, 0, 0, []⟩)]⟩
      "h1" (some "c9") (some "N") "Cam2" none none "F" 7 "F" 7
      ⟨"h1", "PC", [⟨"Cam", false⟩, ⟨"Cam2", true⟩], none, 5961, 0, 0, []⟩
      ⟨"Cam2", true⟩ rfl (by decide) rfl rfl).2.1

/-! ## Claim C8 -/

/-- Claim C8 (confirmed).  `GET /api/hosts` returns exactly the registry entries
whose heartbeat is fresher than 45 s *and* that have at least one enabled
source: every such entry appears, every returned entry arises from such a
host, every returned entry's `lastSeen` is fresh (so a stale host is excluded
at read time even while still in the registry), and the sweep — not the read —
is what actually removes hosts whose heartbeat is older than 45 s. -/
theorem C8_listAvailableHosts_spec (now : Int) (st : ServerState) :
    (∀ p ∈ st.hosts, now - p.2.lastHeartbeat < HOST_TIMEOUT_MS →
       (p.2.sources.filter (fun s => s.enabled)).length > 0 →
       mkAvailable p.1 p.2 ∈ listAvailableHosts now st) ∧
    (∀ e ∈ listAvailableHosts now st, ∃ p ∈ st.hosts,
       now - p.2.lastHeartbeat < HOST_TIMEOUT_MS ∧
       (p.2.sources.filter (fun s => s.enabled)).length > 0 ∧
       e = mkAvailable p.1 p.2) ∧
    (∀ e ∈ listAvailableHosts now st, now - e.lastSeen < HOST_TIMEOUT_MS) ∧
    (∀ p ∈ st.hosts, ¬ (now - p.2.lastHeartbeat < HOST_TIMEOUT_MS) →
       mkAvailable p.1 p.2 ∉ listAvailableHosts now st) ∧
    (∀ p ∈ st.hosts, now - p.2.lastHeartbeat > HOST_TIMEOUT_MS →
       p ∉ (hostSweep now st).hosts) ∧
    (∀ p ∈ st.hosts, ¬ (now - p.2.lastHeartbeat > HOST_TIMEOUT_MS) →
       p ∈ (hostSweep now st).hosts) := by
  refine ⟨?_, ?_, ?_, ?_, ?_, ?_⟩
  · intro p hp hlt hlen
    unfold listAvailableHosts
    rw [List.mem_filterMap]
    exact ⟨p, hp, by rw [if_pos hlt, if_pos hlen]⟩
  · intro e he
    unfold listAvailableHosts at he
    rw [List.mem_filterMap] at he
    obtain ⟨p, hp, hf⟩ := he
    split_ifs at hf with h1 h2
    · exact ⟨p, hp, h1, h2, (Option.some.inj hf).symm⟩
  · intro e he
    unfold listAvailableHosts at he
    rw [List.mem_filterMap] at he
    obtain ⟨p, hp, hf⟩ := he
    split_ifs at hf with h1 h2
    · rw [← Option.some.inj hf]
      simpa [mkAvailable] using h1
  · intro p hp hnlt hmem
    unfold listAvailableHosts at hmem
    rw [List.mem_filterMap] at hmem
    obtain ⟨q, hq, hf⟩ := hmem
    split_ifs at hf with h1 h2
    · have := congrArg AvailableHost.lastSeen (Option.some.inj hf)
      simp only [mkAvailable] at this
      rw [this] at h1
      exact hnlt h1
  · intro p hp hgt hmem
    unfold hostSweep at hmem
    rw [List.mem_filter] at hmem
    simp only [Bool.not_eq_true', decide_eq_false_iff_not] at hmem
    exact hmem.2 hgt
  · intro p hp hngt
    unfold hostSweep
    rw [List.mem_filter]
    exact ⟨hp, by simpa using hngt⟩

/-- Witness for C8: a two-host registry read at `now = 100000` ms — `fresh`
(heartbeat 40 s ago) is listed, `stale` (heartbeat 50 s ago) is not listed,
and `stale` is removed once the sweep runs. -/
theorem C8_witness :
    mkAvailable "fresh" ⟨"fresh", "A", [⟨"Cam", true⟩], none, 5961, 0, 60000, []⟩
      ∈ listAvailableHosts 100000
        ⟨[], [], [("fresh", ⟨"fresh", "A", [⟨"Cam", true⟩], none, 5961, 0, 60000, []⟩),
                  ("stale", ⟨"stale", "B", [⟨"Cam", true⟩], none, 5961, 0, 50000, []⟩)]⟩ ∧
    mkAvailable "stale" ⟨"stale", "B", [⟨"Cam", true⟩], none, 5961, 0, 50000, []⟩
      ∉ listAvailableHosts 100000
        ⟨[], [], [("fresh", ⟨"fresh", "A", [⟨"Cam", true⟩], none, 5961, 0, 60000, []⟩),
                  ("stale", ⟨"stale", "B", [⟨"Cam", true⟩], none, 5961, 0, 50000, []⟩)]⟩ ∧
    ("stale", (⟨"stale", "B", [⟨"Cam", true⟩], none, 5961, 0, 50000, []⟩ : Host))
      ∉ (hostSweep 100000
        ⟨[], [], [("fresh", ⟨"fresh", "A", [⟨"Cam", true⟩], none, 5961, 0, 60000, []⟩),
                  ("stale", ⟨"stale", "B", [⟨"Cam", true⟩], none, 5961, 0, 50000, []⟩)]⟩).hosts := by
  refine ⟨?_, ?_, ?_⟩
  · exact (C8_listAvailableHosts_spec 100000
      ⟨[], [], [("fresh", ⟨"fresh", "A", [⟨"Cam", true⟩], none, 5961, 0, 60000, []⟩),
                ("stale", ⟨"stale", "B", [⟨"Cam", true⟩], none, 5961, 0, 50000, []⟩)]⟩).1
      ("fresh", ⟨"fresh", "A", [⟨"Cam", true⟩], none, 5961, 0, 60000, []⟩)
      (by decide) (by decide) (by decide)
  · exact (C8_listAvailableHosts_spec 100000
      ⟨[], [], [("fresh", ⟨"fresh", "A", [⟨"Cam", true⟩], none, 5961, 0, 60000, []⟩),
                ("stale", ⟨"stale", "B", [⟨"Cam", true⟩], none, 5961, 0, 50000, []⟩)]⟩).2.2.2.1
      ("stale", ⟨"stale", "B", [⟨"Cam", true⟩], none, 5961, 0, 50000, []⟩)
      (by decide) (by decide)
  · exact (C8_listAvailableHosts_spec 100000
      ⟨[], [], [("fresh", ⟨"fresh", "A", [⟨"Cam", true⟩], none, 5961, 0, 60000, []⟩),
                ("stale", ⟨"stale", "B", [⟨"Cam", true⟩], none, 5961, 0, 50000, []⟩)]⟩).2.2.2.2.1
      ("stale", ⟨"stale", "B", [⟨"Cam", true⟩], none, 5961, 0, 50000, []⟩)
      (by decide) (by decide)

/-! ## Claim C9 -/

/-- Claim C9 (confirmed).  A `stun_request` datagram is always answered to the
observed source address/port with a `stun_response` echoing exactly that
address and port; and when the (non-empty) `sessionCode` names an existing
session, a `peer_udp_info{peerId, publicIP, publicPort}` goes out over the
relay to precisely the live members of the session — host and clients — other
than the requester. -/
theorem C9_stun_behavior (sessionCode peerId addr : String) (port : Int)
    (st : ServerState) (session : Session)
    (hne : sessionCode ≠ "")
    (hs : lookup st.sessions sessionCode = some session) :
    (handleStunRequest sessionCode peerId addr port st).1
      = { publicIP := addr, publicPort := port, sessionCode := sessionCode } ∧
    (∀ q ∈ (handleStunRequest sessionCode peerId addr port st).2,
       q.2 = OutMsg.peerUdpInfo peerId addr port ∧ q.1 ≠ peerId ∧
       (session.host = some q.1 ∨ q.1 ∈ session.clients)) ∧
    (∀ pid : String, (session.host = some pid ∨ pid ∈ session.clients) →
       pid ≠ "" → (lookup st.connections pid).isSome = true → pid ≠ peerId →
       (pid, OutMsg.peerUdpInfo peerId addr port)
         ∈ (handleStunRequest sessionCode peerId addr port st).2) := by
  have hsends : (handleStunRequest sessionCode peerId addr port st).2
      = (((match session.host with | some h => [h] | none => []) ++ session.clients).filter
          (fun s => s ≠ "")).filterMap (fun pid =>
            if (lookup st.connections pid).isSome && pid ≠ peerId then
              some (pid, OutMsg.peerUdpInfo peerId addr port)
            else none) := by
    simp [handleStunRequest, hne, hs]
  refine ⟨rfl, ?_, ?_⟩
  · intro q hq
    rw [hsends, List.mem_filterMap] at hq
    obtain ⟨pid, hpid, hg⟩ := hq
    rw [List.mem_filter] at hpid
    split_ifs at hg with hcond
    have hq' := (Option.some.inj hg).symm
    subst hq'
    simp only [Bool.and_eq_true, decide_eq_true_eq] at hcond
    refine ⟨rfl, hcond.2, ?_⟩
    rcases List.mem_append.mp hpid.1 with hmem | hmem
    · cases hh : session.host with
      | none => rw [hh] at hmem; simp at hmem
      | some h =>
        rw [hh] at hmem
        simp at hmem
        subst hmem
        exact Or.inl rfl
    · exact Or.inr hmem
  · intro pid hmem hpne hlive hnp
    rw [hsends, List.mem_filterMap]
    refine ⟨pid, ?_, ?_⟩
    · rw [List.mem_filter]
      refine ⟨?_, by simpa using hpne⟩
      rcases hmem with hh | hcl
      · rw [hh]
        exact List.mem_append_left _ (by simp)
      · exact List.mem_append_right _ hcl
    · simp [hlive, hnp]

/-- Witness for C9: session `AAAAAA` with host `h` and clients `a`, `b`, all
live; a `stun_request` from peer `a` at `203.0.113.5:40000` — the echo goes
back verbatim and `h` receives the `peer_udp_info` broadcast. -/
theorem C9_witness :
    (handleStunRequest "AAAAAA" "a" "203.0.113.5" 40000
        ⟨[("AAAAAA", ⟨"AAAAAA", "h1", "B1", [], some "h", ["a", "b"], 0, "active", none, []⟩)],
         [("h", ⟨some "host", some "AAAAAA"⟩), ("a", ⟨some "client", some "AAAAAA"⟩),
          ("b", ⟨some "client", some "AAAAAA"⟩)], []⟩).1
      = ⟨"203.0.113.5", 40000, "AAAAAA"⟩ ∧
    ("h", OutMsg.peerUdpInfo "a" "203.0.113.5" 40000)
      ∈ (handleStunRequest "AAAAAA" "a" "203.0.113.5" 40000
        ⟨[("AAAAAA", ⟨"AAAAAA", "h1", "B1", [], some "h", ["a", "b"], 0, "active", none, []⟩)],
         [("h", ⟨some "host", some "AAAAAA"⟩), ("a", ⟨some "client", some "AAAAAA"⟩),
          ("b", ⟨some "client", some "AAAAAA"⟩)], []⟩).2 := by
  constructor
  · exact (C9_stun_behavior "AAAAAA" "a" "203.0.113.5" 40000
      ⟨[("AAAAAA", ⟨"AAAAAA", "h1", "B1", [], some "h", ["a", "b"], 0, "active", none, []⟩)],
       [("h", ⟨some "host", some "AAAAAA"⟩), ("a", ⟨some "client", some "AAAAAA"⟩),
        ("b", ⟨some "client", some "AAAAAA"⟩)], []⟩
      ⟨"AAAAAA", "h1", "B1", [], some "h", ["a", "b"], 0, "active", none, []⟩
      (by decide) rfl).1
  · exact (C9_stun_behavior "AAAAAA" "a" "203.0.113.5" 40000
      ⟨[("AAAAAA", ⟨"AAAAAA", "h1", "B1", [], some "h", ["a", "b"], 0, "active", none, []⟩)],
       [("h", ⟨some "host", some "AAAAAA"⟩), ("a", ⟨some "client", some "AAAAAA"⟩),
        ("b", ⟨some "client", some "AAAAAA"⟩)], []⟩
      ⟨"AAAAAA", "h1", "B1", [], some "h", ["a", "b"], 0, "active", none, []⟩
      (by decide) rfl).2.2 "h" (Or.inl rfl) (by decide) rfl (by decide)

/-! ## Claim C10 -/

/-- Claim C10 (confirmed).  Re-registering an already-known `hostId` replaces
the host entry wholesale: `registeredAt` is preserved from the old entry, but
the pending-connection-request queue (`connectedClients`) is reset to `[]`,
so a subsequent heartbeat returns no pending clients — requests queued before
the re-registration are discarded. -/
theorem C10_reregister_resets_pending (st : ServerState) (id computerName : String)
    (sources : List SourceEntry) (publicIP? : Option String)
    (publicPort? : Option Int) (reqIP : Option String) (freshId : String)
    (now now₂ : Int) (oldHost : Host)
    (hid : id ≠ "") (hcn : computerName ≠ "")
    (h : lookup st.hosts id = some oldHost) :
    (lookup (registerHost (some id) computerName sources publicIP? publicPort?
        reqIP freshId now st).1.hosts id).map Host.registeredAt
      = some oldHost.registeredAt ∧
    (lookup (registerHost (some id) computerName sources publicIP? publicPort?
        reqIP freshId now st).1.hosts id).map Host.connectedClients
      = some [] ∧
    (heartbeatHost id none none none none now₂
        (registerHost (some id) computerName sources publicIP? publicPort?
          reqIP freshId now st).1).2
      = HeartbeatResp.ok [] := by
  have hreg : (registerHost (some id) computerName sources publicIP? publicPort?
      reqIP freshId now st).1.hosts
    = setKey st.hosts id
        { hostId := id, computerName := computerName, sources := sources
          publicIP := jsOrOpt publicIP? reqIP, publicPort := jsOrInt publicPort? 5961
          registeredAt := oldHost.registeredAt, lastHeartbeat := now
          connectedClients := [] } := by
    simp [registerHost, hcn, jsOrStr, hid, h]
  have hlook : lookup (registerHost (some id) computerName sources publicIP? publicPort?
      reqIP freshId now st).1.hosts id
    = some { hostId := id, computerName := computerName, sources := sources
             publicIP := jsOrOpt publicIP? reqIP, publicPort := jsOrInt publicPort? 5961
             registeredAt := oldHost.registeredAt, lastHeartbeat := now
             connectedClients := [] } := by
    rw [hreg, lookup_setKey]
    simp
  refine ⟨by rw [hlook]; rfl, by rw [hlook]; rfl, ?_⟩
  revert hlook
  generalize (registerHost (some id) computerName sources publicIP? publicPort?
      reqIP freshId now st).1 = st'
  intro hlook
  simp [heartbeatHost, hlook]

/-- Witness for C10: host `h1` holds one pending request; re-registration
keeps its `registeredAt = 3` yet empties the queue, and the next heartbeat
returns no pending clients. -/
theorem C10_witness :
    (lookup (registerHost (some "h1") "PC" [] none none none "F" 90
        ⟨[], [], [("h1", ⟨"h1", "PC", [], none, 5961, 3, 50,
          [⟨"x", "X", "Cam", none, none, 40, false⟩]⟩)]⟩).1.hosts "h1").map Host.registeredAt
      = some 3 ∧
    (lookup (registerHost (some "h1") "PC" [] none none none "F" 90
        ⟨[], [], [("h1", ⟨"h1", "PC", [], none, 5961, 3, 50,
          [⟨"x", "X", "Cam", none, none, 40, false⟩]⟩)]⟩).1.hosts "h1").map Host.connectedClients
      = some [] ∧
    (heartbeatHost "h1" none none none none 95
        (registerHost (some "h1") "PC" [] none none none "F" 90
          ⟨[], [], [("h1", ⟨"h1", "PC", [], none, 5961, 3, 50,
            [⟨"x", "X", "Cam", none, none, 40, false⟩]⟩)]⟩).1).2
      = HeartbeatResp.ok [] :=
  C10_reregister_resets_pending
    ⟨[], [], [("h1", ⟨"h1", "PC", [], none, 5961, 3, 50,
      [⟨"x", "X", "Cam", none, none, 40, false⟩]⟩)]⟩
    "h1" "PC" [] none none none "F" 90 95
    ⟨"h1", "PC", [], none, 5961, 3, 50, [⟨"x", "X", "Cam", none, none, 40, false⟩]⟩
    (by decide) (by decide) rfl

/-! ## Claim C3 -/

/-- Claim C3 (confirmed).  A relayed message (offer / answer / ice-candidate /
connection_info / udp_endpoint) without a `targetId`, from a registered
connection whose session exists: `handleSignal` leaves the state unchanged
and performs `forwardSignal`.  A host's broadcast is delivered to exactly the
(live) entries of its session's clients list — never outside it; a client's
broadcast goes only to the session's host, if one is registered and live;
and the sender's own id is always excluded. -/
theorem C3_forwardSignal_routing (st : ServerState) (fromId : String)
    (fromConn : Conn) (code : String) (session : Session) (msg : SignalMsg)
    (hc : lookup st.connections fromId = some fromConn)
    (hcode : fromConn.sessionCode = some code)
    (hs : lookup st.sessions code = some session)
    (hrelay : msg.isRelayed = true)
    (htarget : msg.targetId = none) :
    handleSignal fromId msg st = (st, forwardSignal fromId msg st) ∧
    (fromConn.role = some "host" →
      (∀ q ∈ forwardSignal fromId msg st,
         q.1 ∈ session.clients ∧ q.1 ≠ fromId ∧ q.2 = OutMsg.forwarded msg fromId) ∧
      (∀ cid ∈ session.clients, (lookup st.connections cid).isSome = true →
         cid ≠ fromId →
         (cid, OutMsg.forwarded msg fromId) ∈ forwardSignal fromId msg st)) ∧
    (fromConn.role = some "client" →
      (∀ q ∈ forwardSignal fromId msg st,
         session.host = some q.1 ∧ q.1 ≠ fromId ∧ q.2 = OutMsg.forwarded msg fromId) ∧
      (∀ hid : String, session.host = some hid →
         (lookup st.connections hid).isSome = true → hid ≠ fromId →
         (hid, OutMsg.forwarded msg fromId) ∈ forwardSignal fromId msg st)) ∧
    (∀ q ∈ forwardSignal fromId msg st, q.1 ≠ fromId) := by
  have hdispatch : handleSignal fromId msg st = (st, forwardSignal fromId msg st) := by
    cases msg with
    | register c r => simp [SignalMsg.isRelayed] at hrelay
    | ping => simp [SignalMsg.isRelayed] at hrelay
    | unknown t => simp [SignalMsg.isRelayed] at hrelay
    | offer t p => rfl
    | answer t p => rfl
    | iceCandidate t p => rfl
    | connectionInfo t p => rfl
    | udpEndpoint t p => rfl
  have hfwd : forwardSignal fromId msg st
      = (if fromConn.role = some "host" then session.clients
         else match session.host with | some h => [h] | none => []).filterMap
          (fun id =>
            if (lookup st.connections id).isSome && id ≠ fromId then
              some (id, OutMsg.forwarded msg fromId)
            else none) := by
    simp [forwardSignal, hc, hcode, hs, htarget]
  refine ⟨hdispatch, ?_, ?_, ?_⟩
  · intro hrole
    rw [hfwd, if_pos hrole]
    constructor
    · intro q hq
      rw [List.mem_filterMap] at hq
      obtain ⟨cid, hcid, hg⟩ := hq
      split_ifs at hg with hcond
      have hq' := (Option.some.inj hg).symm
      subst hq'
      simp only [Bool.and_eq_true, decide_eq_true_eq] at hcond
      exact ⟨hcid, hcond.2, rfl⟩
    · intro cid hcid hlive hne
      rw [List.mem_filterMap]
      exact ⟨cid, hcid, by simp [hlive, hne]⟩
  · intro hrole
    have hnothost : ¬ fromConn.role = some "host" := by
      rw [hrole]
      simp
    rw [hfwd, if_neg hnothost]
    constructor
    · intro q hq
      cases hh : session.host with
      | none =>
        rw [hh] at hq
        simp at hq
      | some h =>
        rw [hh] at hq
        rw [List.mem_filterMap] at hq
        obtain ⟨cid, hcid, hg⟩ := hq
        simp only [List.mem_singleton] at hcid
        subst hcid
        split_ifs at hg with hcond
        have hq' := (Option.some.inj hg).symm
        subst hq'
        simp only [Bool.and_eq_true, decide_eq_true_eq] at hcond
        exact ⟨rfl, hcond.2, rfl⟩
    · intro hid hh hlive hne
      rw [hh, List.mem_filterMap]
      exact ⟨hid, by simp, by simp [hlive, hne]⟩
  · intro q hq
    rw [hfwd] at hq
    rw [List.mem_filterMap] at hq
    obtain ⟨cid, hcid, hg⟩ := hq
    split_ifs at hg with hcond
    have hq' := (Option.some.inj hg).symm
    subst hq'
    simp only [Bool.and_eq_true, decide_eq_true_eq] at hcond
    exact hcond.2

/-- Witness for C3: session `AAAAAA` with host `h` and clients `a`, `b`; the
host broadcasts an offer with no `targetId` — both clients receive it and it
reaches client `a` in particular; the state is untouched. -/
theorem C3_witness :
    handleSignal "h" (SignalMsg.offer none "sdp")
        ⟨[("AAAAAA", ⟨"AAAAAA", "h1", "B1", [], some "h", ["a", "b"], 0, "active", none, []⟩)],
         [("h", ⟨some "host", some "AAAAAA"⟩), ("a", ⟨some "client", some "AAAAAA"⟩),
          ("b", ⟨some "client", some "AAAAAA"⟩)], []⟩
      = (⟨[("AAAAAA", ⟨"AAAAAA", "h1", "B1", [], some "h", ["a", "b"], 0, "active", none, []⟩)],
          [("h", ⟨some "host", some "AAAAAA"⟩), ("a", ⟨some "client", some "AAAAAA"⟩),
           ("b", ⟨some "client", some "AAAAAA"⟩)], []⟩,
         forwardSignal "h" (SignalMsg.offer none "sdp")
          ⟨[("AAAAAA", ⟨"AAAAAA", "h1", "B1", [], some "h", ["a", "b"], 0, "active", none, []⟩)],
           [("h", ⟨some "host", some "AAAAAA"⟩), ("a", ⟨some "client", some "AAAAAA"⟩),
            ("b", ⟨some "client", some "AAAAAA"⟩)], []⟩) ∧
    ("a", OutMsg.forwarded (SignalMsg.offer none "sdp") "h")
      ∈ forwardSignal "h" (SignalMsg.offer none "sdp")
          ⟨[("AAAAAA", ⟨"AAAAAA", "h1", "B1", [], some "h", ["a", "b"], 0, "active", none, []⟩)],
           [("h", ⟨some "host", some "AAAAAA"⟩), ("a", ⟨some "client", some "AAAAAA"⟩),
            ("b", ⟨some "client", some "AAAAAA"⟩)], []⟩ := by
  constructor
  · exact (C3_forwardSignal_routing
      ⟨[("AAAAAA", ⟨"AAAAAA", "h1", "B1", [], some "h", ["a", "b"], 0, "active", none, []⟩)],
       [("h", ⟨some "host", some "AAAAAA"⟩), ("a", ⟨some "client", some "AAAAAA"⟩),
        ("b", ⟨some "client", some "AAAAAA"⟩)], []⟩
      "h" ⟨some "host", some "AAAAAA"⟩ "AAAAAA"
      ⟨"AAAAAA", "h1", "B1", [], some "h", ["a", "b"], 0, "active", none, []⟩
      (SignalMsg.offer none "sdp") rfl rfl rfl rfl rfl).1
  · exact ((C3_forwardSignal_routing
      ⟨[("AAAAAA", ⟨"AAAAAA", "h1", "B1", [], some "h", ["a", "b"], 0, "active", none, []⟩)],
       [("h", ⟨some "host", some "AAAAAA"⟩), ("a", ⟨some "client", some "AAAAAA"⟩),
        ("b", ⟨some "client", some "AAAAAA"⟩)], []⟩
      "h" ⟨some "host", some "AAAAAA"⟩ "AAAAAA"
      ⟨"AAAAAA", "h1", "B1", [], some "h", ["a", "b"], 0, "active", none, []⟩
      (SignalMsg.offer none "sdp") rfl rfl rfl rfl rfl).2.1 rfl).2
      "a" (by decide) rfl (by decide)

end NDIBridge
